import Mathlib

/-!
Shallow embedding of `src/server.js`, an Express/MySQL backend for a
career-guidance platform.  The database is modelled as explicit state (lists
of rows, in insertion order, as an autoincrement primary-key scan returns
them); each HTTP handler becomes a function from a request body and a
database state to a status code and a new state.  Fallible database queries
are modelled with an explicit error oracle where a claim depends on failure
behaviour.  JavaScript truthiness of string-valued JSON fields is modelled
by `truthy` (absent or empty string is falsy).
-/

/-! ## Data model -/

/-- Row of the `users` table, the columns the handlers read and write. -/
structure UserRow where
  id : Nat
  name : String
  email : String
  password : String
  user_type : String
  profile_picture : String
deriving DecidableEq

/-- Row of the `institutions` table (only the id matters to the claims). -/
structure InstitutionRow where
  id : Nat
  name : String
deriving DecidableEq

/-- Row of the `applications` table, restricted to the columns that the
admission-publishing flow reads (`SELECT *` followed by destructuring of
`student_id` and `course_id`). -/
structure ApplicationRow where
  id : Nat
  student_id : String
  course_id : String
deriving DecidableEq

/-- Row of the `admissions` table as inserted by `POST /publish-admissions`:
`INSERT INTO admissions (student_id, course_id, institution_id, faculty_id,
status)`. -/
structure AdmissionRow where
  student_id : String
  course_id : String
  institution_id : Option String
  faculty_id : Option String
  status : String
deriving DecidableEq

/-- The database state: one list of rows per table, in insertion order. -/
structure DB where
  users : List UserRow
  institutions : List InstitutionRow
  applications : List ApplicationRow
  admissions : List AdmissionRow
deriving DecidableEq

/-- JavaScript truthiness of an optional string field of a JSON body:
`undefined`, `null` and `""` are falsy, every other string is truthy. -/
def truthy : Option String → Bool
  | none => false
  | some s => !s.isEmpty

/-! ## POST /publish-admissions -/

/-- The admission row built by the loop body:
`VALUES (?, ?, ?, ?, 'admitted')` with parameters
`[student_id, course_id, null, null]`. -/
def mkAdmission (a : ApplicationRow) : AdmissionRow :=
  { student_id := a.student_id
    course_id := a.course_id
    institution_id := none
    faculty_id := none
    status := "admitted" }

/-- The lookup `SELECT * FROM applications WHERE id = ?` followed by
`applicationResult[0]` when `applicationResult.length` is non-zero. -/
def findApplication (apps : List ApplicationRow) (appId : Nat) : Option ApplicationRow :=
  (apps.filter (fun a => a.id == appId)).head?

/-- The `for (let appId of application_ids)` loop.  `failAt = some m` means
the database raises an error on the `(m+1)`-st admission insert attempt
(`k` counts the inserts already performed); `.error` carries the admissions
committed before the exception reached the `catch` block, `.ok` the
admissions after a loop that completed. -/
def publishLoop (failAt : Option Nat) (apps : List ApplicationRow) :
    List Nat → Nat → List AdmissionRow → Except (List AdmissionRow) (List AdmissionRow)
  | [], _, adms => .ok adms
  | appId :: rest, k, adms =>
    match findApplication apps appId with
    | none => publishLoop failAt apps rest k adms
    | some a =>
      if failAt = some k then .error adms
      else publishLoop failAt apps rest (k + 1) (adms ++ [mkAdmission a])

/-- The `POST /publish-admissions` handler.  The body's `application_ids` is
`none` when absent or not an array; an empty list is rejected with 400.  On a
completed loop the response is 200; a database error inside the loop is
caught and answered with 500, with the already-inserted admissions kept. -/
def publishAdmissions (failAt : Option Nat) (db : DB) (application_ids : Option (List Nat)) :
    Nat × DB :=
  match application_ids with
  | none => (400, db)
  | some ids =>
    if ids.isEmpty then (400, db)
    else
      match publishLoop failAt db.applications ids 0 db.admissions with
      | .ok adms => (200, { db with admissions := adms })
      | .error adms => (500, { db with admissions := adms })

/-! ## DELETE /institutions/:id -/

/-- The `DELETE /institutions/:id` handler: `DELETE FROM institutions WHERE
id = ?`, answering 200 when `affectedRows > 0` and 404 otherwise. -/
def deleteInstitution (db : DB) (institutionId : Nat) : Nat × DB :=
  let matched := db.institutions.filter (fun r => r.id == institutionId)
  let db1 := { db with institutions := db.institutions.filter (fun r => r.id != institutionId) }
  if 0 < matched.length then (200, db1) else (404, db1)

/-! ## Loop characterisation lemmas -/

/-- With no database error, the loop appends one admission per id that
matches an application, in order, skipping the ids that match none. -/
theorem publishLoop_ok (apps : List ApplicationRow) :
    ∀ (ids : List Nat) (k : Nat) (adms : List AdmissionRow),
      publishLoop none apps ids k adms =
        .ok (adms ++ (ids.filterMap (findApplication apps)).map mkAdmission) := by
  intro ids
  induction ids with
  | nil => intro k adms; simp [publishLoop]
  | cons i rest ih =>
    intro k adms
    cases h : findApplication apps i with
    | none => simp [publishLoop, h, ih]
    | some a => simp [publishLoop, h, ih]

/-- When the database raises on the `(m+1)`-st insert and the loop reaches
that insert, the exception propagates with exactly the first `m - k`
admissions of the run appended. -/
theorem publishLoop_error (apps : List ApplicationRow) :
    ∀ (ids : List Nat) (k : Nat) (adms : List AdmissionRow) (m : Nat),
      k ≤ m →
      m - k < (ids.filterMap (findApplication apps)).length →
      publishLoop (some m) apps ids k adms =
        .error (adms ++ (((ids.filterMap (findApplication apps)).take (m - k)).map mkAdmission)) := by
  intro ids
  induction ids with
  | nil => intro k adms m _ hlen; simp at hlen
  | cons i rest ih =>
    intro k adms m hk hlen
    cases h : findApplication apps i with
    | none =>
      simp only [List.filterMap_cons, h] at hlen ⊢
      simp only [publishLoop, h]
      exact ih k adms m hk hlen
    | some a =>
      simp only [List.filterMap_cons, h] at hlen ⊢
      by_cases hkm : k = m
      · subst hkm
        simp [publishLoop, h]
      · have hk1 : k + 1 ≤ m := by omega
        have hlen1 : m - (k + 1) < (rest.filterMap (findApplication apps)).length := by
          simp at hlen; omega
        have := ih (k + 1) (adms ++ [mkAdmission a]) m hk1 hlen1
        obtain ⟨d, hd⟩ : ∃ d, m - k = d + 1 := ⟨m - k - 1, by omega⟩
        have hd1 : m - (k + 1) = d := by omega
        rw [hd1] at this
        simp only [publishLoop, h]
        rw [if_neg (by simp; omega)]
        rw [this, hd, List.take_succ_cons]
        simp

/-- Auxiliary: the number of ids whose lookup succeeds. -/
theorem length_filterMap_findApplication (apps : List ApplicationRow) :
    ∀ ids : List Nat,
      (ids.filterMap (findApplication apps)).length =
        (ids.filter (fun i => (findApplication apps i).isSome)).length := by
  intro ids
  induction ids with
  | nil => rfl
  | cons i rest ih =>
    cases h : findApplication apps i with
    | none => simp [List.filterMap_cons, List.filter_cons, h, ih]
    | some a => simp [List.filterMap_cons, List.filter_cons, h, ih]

/-! ## Claim C1: publish-admissions on a mixed id list -/

/-- C1: for every call of `publishAdmissions` with a list of application ids
in which some ids match an existing application and some do not, the loop
inserts exactly one admission per matching id (copying its `student_id` and
`course_id`, with `institution_id` and `faculty_id` null and status
`"admitted"`), skips the non-matching ids without error, and the response is
200 once the loop completes. -/
theorem publishAdmissions_mixed_ids (db : DB) (ids : List Nat)
    (hhit : ∃ i ∈ ids, (findApplication db.applications i).isSome = true)
    (hmiss : ∃ j ∈ ids, findApplication db.applications j = none) :
    publishAdmissions none db (some ids) =
      (200, { db with admissions :=
        db.admissions ++ (ids.filterMap (findApplication db.applications)).map mkAdmission }) ∧
    (db.admissions ++ (ids.filterMap (findApplication db.applications)).map mkAdmission).length =
      db.admissions.length +
        (ids.filter (fun i => (findApplication db.applications i).isSome)).length := by
  obtain ⟨i, hi, _⟩ := hhit
  have hne : ids.isEmpty = false := by
    cases ids with
    | nil => cases hi
    | cons a l => rfl
  constructor
  · simp [publishAdmissions, hne, publishLoop_ok]
  · simp [length_filterMap_findApplication]

/-- Concrete database for the C1 witness: one application, id 1. -/
def dbC1 : DB :=
  { users := []
    institutions := []
    applications := [⟨1, "S1", "COURSE7"⟩]
    admissions := [] }

/-- Witness for C1: the list `[1, 99]` has one matching and one non-matching
id; the call returns 200 and creates exactly one admission row. -/
theorem publishAdmissions_mixed_ids_witness :
    (∃ i ∈ [1, 99], (findApplication dbC1.applications i).isSome = true) ∧
    (∃ j ∈ [1, 99], findApplication dbC1.applications j = none) ∧
    publishAdmissions none dbC1 (some [1, 99]) =
      (200, { dbC1 with admissions := [⟨"S1", "COURSE7", none, none, "admitted"⟩] }) := by
  refine ⟨by decide, by decide, ?_⟩
  exact (publishAdmissions_mixed_ids dbC1 [1, 99] (by decide) (by decide)).1

/-! ## Claim C6: publish-admissions is not atomic -/

/-- C6: if the database raises an error on the `N`-th admission insert of the
loop, the request is answered with 500, but the `N - 1` admissions inserted
by the earlier iterations remain committed. -/
theorem publishAdmissions_abort (db : DB) (ids : List Nat) (N : Nat)
    (_hN : 1 ≤ N)
    (hlen : N - 1 < (ids.filterMap (findApplication db.applications)).length) :
    publishAdmissions (some (N - 1)) db (some ids) =
      (500, { db with admissions :=
        db.admissions ++
          (((ids.filterMap (findApplication db.applications)).take (N - 1)).map mkAdmission) }) := by
  have hne : ids.isEmpty = false := by
    cases ids with
    | nil => simp at hlen
    | cons a l => rfl
  have h := publishLoop_error db.applications ids 0 db.admissions (N - 1)
    (Nat.zero_le _) (by simpa using hlen)
  simp only [Nat.sub_zero] at h
  simp [publishAdmissions, hne, h]

/-- Concrete database for the C6 witness: two applications, ids 1 and 2. -/
def dbC6 : DB :=
  { users := []
    institutions := []
    applications := [⟨1, "S1", "C1"⟩, ⟨2, "S2", "C2"⟩]
    admissions := [] }

/-- Witness for C6: with ids `[1, 2]` and a database error on the second
insert, the response is 500 and the first admission remains committed. -/
theorem publishAdmissions_abort_witness :
    1 ≤ 2 ∧
    (2 - 1 < (([1, 2]).filterMap (findApplication dbC6.applications)).length) ∧
    publishAdmissions (some (2 - 1)) dbC6 (some [1, 2]) =
      (500, { dbC6 with admissions := [⟨"S1", "C1", none, none, "admitted"⟩] }) := by
  refine ⟨by decide, by decide, ?_⟩
  have h := publishAdmissions_abort dbC6 [1, 2] 2 (by decide) (by decide)
  simpa using h

/-! ## Claim C9: deleting an institution twice -/

/-- C9: for an id present in the institutions table, the first
`deleteInstitution` call answers 200 (a row was removed), the second answers
404, and the second call leaves the state unchanged. -/
theorem deleteInstitution_twice (db : DB) (institutionId : Nat)
    (h : ∃ r ∈ db.institutions, r.id = institutionId) :
    (deleteInstitution db institutionId).1 = 200 ∧
    (deleteInstitution (deleteInstitution db institutionId).2 institutionId).1 = 404 ∧
    (deleteInstitution (deleteInstitution db institutionId).2 institutionId).2 =
      (deleteInstitution db institutionId).2 := by
  obtain ⟨r, hr, hid⟩ := h
  have hmem : r ∈ db.institutions.filter (fun x => x.id == institutionId) :=
    List.mem_filter.mpr ⟨hr, by simp [hid]⟩
  have hpos : 0 < (db.institutions.filter (fun x => x.id == institutionId)).length :=
    List.length_pos.mpr (List.ne_nil_of_mem hmem)
  have hnil : ((db.institutions.filter (fun x => x.id != institutionId)).filter
      (fun x => x.id == institutionId)) = [] := by
    simp [List.filter_filter]
  have hidem : ((db.institutions.filter (fun x => x.id != institutionId)).filter
      (fun x => x.id != institutionId)) =
      db.institutions.filter (fun x => x.id != institutionId) := by
    simp [List.filter_filter]
  refine ⟨?_, ?_, ?_⟩
  · simp [deleteInstitution, hpos]
  · simp [deleteInstitution, hpos, hnil]
  · simp [deleteInstitution, hpos, hnil, hidem]

/-- Concrete database for the C9 witness: one institution, id 5. -/
def dbC9 : DB :=
  { users := []
    institutions := [⟨5, "Limkokwing"⟩]
    applications := []
    admissions := [] }

/-- Witness for C9: deleting institution 5 twice yields 200 then 404, with
no state change on the second call. -/
theorem deleteInstitution_twice_witness :
    (∃ r ∈ dbC9.institutions, r.id = 5) ∧
    ((deleteInstitution dbC9 5).1 = 200 ∧
     (deleteInstitution (deleteInstitution dbC9 5).2 5).1 = 404 ∧
     (deleteInstitution (deleteInstitution dbC9 5).2 5).2 = (deleteInstitution dbC9 5).2) :=
  ⟨by decide, deleteInstitution_twice dbC9 5 (by decide)⟩

/-! ## POST /apply and POST /applications: bodies and the grades loop -/

/-- One element of the request body's `grades` array. -/
structure GradeEntry where
  subject : Option String
  grade : Option String
deriving DecidableEq

/-- The JSON body destructured by the application-submission handlers.
A field is `none` when absent from the body; `grades` is `none` when absent
(or not an array). -/
structure ApplyBody where
  student_name : Option String
  phone_number : Option String
  student_id : Option String
  university : Option String
  course_id : Option String
  faculty : Option String
  major_subject : Option String
  grades : Option (List GradeEntry)
deriving DecidableEq

/-- JavaScript `x || ''` on an optional string field: an absent (or empty)
value collapses to the empty string. -/
def orEmpty (o : Option String) : String := o.getD ""

/-- JavaScript array assignment `a[i] = v` for `i ≤ a.length`, the only case
this program exercises (`forEach` supplies consecutive indices from 0): an
in-range write updates the slot, a write one past the end grows the array. -/
def jsSet (a : List String) (i : Nat) (v : String) : List String :=
  if i < a.length then a.set i v else a ++ [v]

/-- Successive JavaScript writes `a[i] = v₀; a[i+1] = v₁; …`. -/
def writeFrom : List String → Nat → List String → List String
  | a, _, [] => a
  | a, i, v :: vs => writeFrom (jsSet a i v) (i + 1) vs

/-- The `grades.forEach((grade, index) => { subjects[index] = grade.subject
|| ''; gradesValues[index] = grade.grade || ''; })` loop shared by the first
`/apply` handler and the `/applications` handler. -/
def forEachWrite : List String × List String → Nat → List GradeEntry → List String × List String
  | acc, _, [] => acc
  | acc, i, e :: rest =>
    forEachWrite (jsSet acc.1 i (orEmpty e.subject), jsSet acc.2 i (orEmpty e.grade)) (i + 1) rest

/-- The `subjects` and `gradesValues` arrays after the loop, starting from
`new Array(8).fill('')`. -/
def applyArrays (grades : List GradeEntry) : List String × List String :=
  forEachWrite (List.replicate 8 "", List.replicate 8 "") 0 grades

/-- The SQL text of the first `/apply` handler's insert (whitespace
normalised): 23 named columns, and a VALUES clause written with only 20
placeholders. -/
def sqlQueryApply : String :=
  "INSERT INTO applications ( student_name, phone_number, student_id, university, course_id, faculty, major_subject, subject1, grade1, subject2, grade2, subject3, grade3, subject4, grade4, subject5, grade5, subject6, grade6, subject7, grade7, subject8, grade8 ) VALUES (?, ?, ?, ?, ?, ?, ?, ?, ?, ?, ?, ?, ?, ?, ?, ?, ?, ?, ?, ?)"

/-- Number of `?` placeholders in a SQL string. -/
def countPlaceholders (s : String) : Nat :=
  s.data.countP (fun c => c == '?')

/-- The column list named by the first `/apply` insert, in source order. -/
def applyColumns : List String :=
  ["student_name", "phone_number", "student_id", "university", "course_id",
   "faculty", "major_subject",
   "subject1", "grade1", "subject2", "grade2", "subject3", "grade3",
   "subject4", "grade4", "subject5", "grade5", "subject6", "grade6",
   "subject7", "grade7", "subject8", "grade8"]

/-- The parameter list of the first `/apply` insert: the seven scalar fields,
then the whole `subjects` array, then the whole `gradesValues` array. -/
def applyParams (b : ApplyBody) (gs : List GradeEntry) : List String :=
  [orEmpty b.student_name, orEmpty b.phone_number, orEmpty b.student_id,
   orEmpty b.university, orEmpty b.course_id, orEmpty b.faculty,
   orEmpty b.major_subject] ++ (applyArrays gs).1 ++ (applyArrays gs).2

/-! ## Handler outcomes and the two /apply registrations -/

/-- Outcome of one request against a handler: a single response (status code
and resulting database state), or an exception that escaped the handler so
that no response is sent. -/
inductive Outcome where
  | response (status : Nat) (db : DB)
  | uncaught (db : DB)
deriving DecidableEq

/-- The status code of a response outcome, `none` when no response was sent. -/
def Outcome.respStatus : Outcome → Option Nat
  | .response s _ => some s
  | .uncaught _ => none

/-- Scalar-field validation of the first `POST /apply` handler: the seven
destructured string fields must be truthy; `grades` is destructured but not
checked. -/
def apply1Valid (b : ApplyBody) : Bool :=
  truthy b.student_name && truthy b.phone_number && truthy b.student_id &&
  truthy b.university && truthy b.course_id && truthy b.faculty &&
  truthy b.major_subject

/-- Autoincrement id for a new application row. -/
def nextApplicationId (db : DB) : Nat :=
  (db.applications.map (fun a => a.id)).foldr max 0 + 1

/-- Insert of a new application row, tracking the columns the admission
flow later reads. -/
def insertApplication (db : DB) (b : ApplyBody) : DB :=
  { db with applications :=
      db.applications ++
        [{ id := nextApplicationId db
           student_id := orEmpty b.student_id
           course_id := orEmpty b.course_id }] }

/-- The first `POST /apply` handler (source order).  After validation it runs
`grades.forEach(...)` outside the try/catch, so when `grades` is absent the
resulting TypeError escapes the handler and no response is sent.  The try
block issues the insert; `dbFails` is the error oracle for that query. -/
def applyHandler1 (dbFails : Bool) (b : ApplyBody) (db : DB) : Outcome :=
  if !(apply1Valid b) then .response 400 db
  else
    match b.grades with
    | none => .uncaught db
    | some _ =>
      if dbFails then .response 500 db
      else .response 201 (insertApplication db b)

/-- Validation of the second `POST /apply` handler: only `student_name`,
`student_id` and `course_id` are checked. -/
def apply2Valid (b : ApplyBody) : Bool :=
  truthy b.student_name && truthy b.student_id && truthy b.course_id

/-- The second `POST /apply` handler: a seven-column insert, 201 with the
new id on success, 500 when the query errors. -/
def applyHandler2 (dbFails : Bool) (b : ApplyBody) (db : DB) : Outcome :=
  if !(apply2Valid b) then .response 400 db
  else if dbFails then .response 500 db
  else .response 201 (insertApplication db b)

/-- One registered route of the Express app (restricted to the handlers of
the endpoint claim C3 is about). -/
structure Route where
  method : String
  path : String
  handler : Bool → ApplyBody → DB → Outcome

/-- The route stack in registration order: `app.post('/apply', …)` is
called twice, first with the 23-column handler, then with the 7-column
handler. -/
def applyRouteStack : List Route :=
  [⟨"POST", "/apply", applyHandler1⟩, ⟨"POST", "/apply", applyHandler2⟩]

/-- Express dispatch: the request walks the stack in registration order and
is handled by the first route whose method and path match; a handler that
ends the response never calls `next()`, so later matching registrations are
unreachable (documented behaviour of the Express routing library). -/
def dispatch (routes : List Route) (method path : String) (dbFails : Bool)
    (b : ApplyBody) (db : DB) : Outcome :=
  match routes.find? (fun r => r.method == method && r.path == path) with
  | some r => r.handler dbFails b db
  | none => .response 404 db

/-- Modelled from the spec: "real routing frameworks register only the
last-bound handler" — dispatch to the LAST matching registration.  This is
the dispatch model claim C3 asserts, to be compared with `dispatch`. -/
def dispatchSpecLastBound (routes : List Route) (method path : String) (dbFails : Bool)
    (b : ApplyBody) (db : DB) : Outcome :=
  match (routes.filter (fun r => r.method == method && r.path == path)).getLast? with
  | some r => r.handler dbFails b db
  | none => .response 404 db

/-! ## POST /applications -/

/-- Identifiers in scope inside the `POST /applications` handler at the
point of the `query(testQuery, testData)` call: the module-level bindings
and the handler's own bindings.  `testQuery` is not among them — that
identifier is referenced at the call and defined nowhere in the file. -/
def applicationsScope : List String :=
  ["express", "mysql", "cors", "bcrypt", "bodyParser", "multer", "promisify",
   "app", "storage", "upload", "db", "query", "port",
   "req", "res", "testData", "studentName", "phoneNumber", "student_id",
   "university", "course_id", "faculty", "majorSubject", "grades",
   "subjects", "gradesValues", "sqlQuery", "params"]

/-- Evaluation of an identifier: a reference to a name that is not in scope
raises a ReferenceError. -/
def evalIdent (x : String) : Except String String :=
  if x ∈ applicationsScope then .ok x else .error "ReferenceError"

/-- Validation of `POST /applications`: the seven scalar fields must be
truthy and `grades` must be present (an array is truthy even when empty). -/
def applicationsValid (b : ApplyBody) : Bool :=
  apply1Valid b && b.grades.isSome

/-- The `POST /applications` handler.  Its try block evaluates
`query(testQuery, testData)`: resolving `testQuery` raises a ReferenceError
inside the try, so the catch answers 500 and no insert is ever issued. -/
def applicationsHandler (b : ApplyBody) (db : DB) : Nat × DB :=
  if !(applicationsValid b) then (400, db)
  else
    match evalIdent "testQuery" with
    | .ok _ => (201, insertApplication db b)
    | .error _ => (500, db)

/-! ## Characterisation of the grades loop -/

/-- Taking one slot past an in-range write captures the written value. -/
theorem take_succ_set (v : String) :
    ∀ (a : List String) (i : Nat), i < a.length →
      (a.set i v).take (i + 1) = a.take i ++ [v] := by
  intro a
  induction a with
  | nil => intro i h; simp at h
  | cons x xs ih =>
    intro i h
    cases i with
    | zero => simp
    | succ j =>
      simp only [List.set_cons_succ, List.take_succ_cons]
      rw [ih j (by simpa using h)]
      rfl

/-- Consecutive JavaScript writes starting at `i ≤ a.length` replace the
corresponding slice of the array and grow it when they run past the end. -/
theorem writeFrom_eq :
    ∀ (vs a : List String) (i : Nat), i ≤ a.length →
      writeFrom a i vs = a.take i ++ vs ++ a.drop (i + vs.length) := by
  intro vs
  induction vs with
  | nil => intro a i h; simp [writeFrom]
  | cons v vs ih =>
    intro a i h
    by_cases hlt : i < a.length
    · have hset : jsSet a i v = a.set i v := if_pos hlt
      have hrec := ih (a.set i v) (i + 1) (by simp only [List.length_set]; omega)
      have htake : (a.set i v).take (i + 1) = a.take i ++ [v] := take_succ_set v a i hlt
      have hdrop : (a.set i v).drop (i + 1 + vs.length) = a.drop (i + 1 + vs.length) :=
        List.drop_set_of_lt v a (by omega)
      have harith : i + (vs.length + 1) = i + 1 + vs.length := by omega
      rw [List.length_cons, harith, writeFrom, hset, hrec, htake, hdrop]
      simp [List.append_assoc]
    · have hi : i = a.length := by omega
      have hlen1 : (a ++ [v]).length = i + 1 := by
        simp only [List.length_append, List.length_cons, List.length_nil]; omega
      have hset : jsSet a i v = a ++ [v] := if_neg hlt
      have hrec := ih (a ++ [v]) (i + 1) (by omega)
      have htake : (a ++ [v]).take (i + 1) = a ++ [v] := List.take_of_length_le (by omega)
      have hdrop : (a ++ [v]).drop (i + 1 + vs.length) = [] :=
        List.drop_eq_nil_of_le (by omega)
      have h1 : a.take i = a := List.take_of_length_le (by omega)
      have h2 : a.drop (i + (vs.length + 1)) = [] := List.drop_eq_nil_of_le (by omega)
      rw [List.length_cons, writeFrom, hset, hrec, htake, hdrop, h1, h2]
      simp [List.append_assoc]

/-- The forEach loop acts independently on the two arrays. -/
theorem forEachWrite_eq_writeFrom :
    ∀ (g : List GradeEntry) (subs grs : List String) (i : Nat),
      forEachWrite (subs, grs) i g =
        (writeFrom subs i (g.map (fun e => orEmpty e.subject)),
         writeFrom grs i (g.map (fun e => orEmpty e.grade))) := by
  intro g
  induction g with
  | nil => intro subs grs i; rfl
  | cons e rest ih =>
    intro subs grs i
    simp only [forEachWrite, writeFrom, List.map_cons]
    exact ih _ _ (i + 1)

/-- Arrays after the loop: the supplied pairs in order, padded with empty
strings up to 8 slots; a run longer than 8 keeps every entry (the padding
term is then empty). -/
theorem applyArrays_eq (g : List GradeEntry) :
    applyArrays g =
      (g.map (fun e => orEmpty e.subject) ++ List.replicate (8 - g.length) "",
       g.map (fun e => orEmpty e.grade) ++ List.replicate (8 - g.length) "") := by
  unfold applyArrays
  rw [forEachWrite_eq_writeFrom]
  rw [writeFrom_eq _ _ 0 (by simp), writeFrom_eq _ _ 0 (by simp)]
  simp only [List.take_zero, List.nil_append, Nat.zero_add, List.length_map,
    List.drop_replicate]

/-! ## Claim C2: grades sequences longer than 8 -/

/-- Nine grade pairs, for exercising the loop past the eighth slot. -/
def gradesNine : List GradeEntry :=
  [⟨some "Sesotho", some "A"⟩, ⟨some "English", some "B"⟩,
   ⟨some "Maths", some "C"⟩, ⟨some "Science", some "A"⟩,
   ⟨some "Biology", some "B"⟩, ⟨some "Physics", some "C"⟩,
   ⟨some "Accounting", some "A"⟩, ⟨some "History", some "B"⟩,
   ⟨some "Geography", some "D"⟩]

/-- A request body that passes the first handler's validation and carries
nine grade pairs. -/
def bodyNine : ApplyBody :=
  { student_name := some "Lineo Molapo"
    phone_number := some "58123456"
    student_id := some "ST100"
    university := some "NUL"
    course_id := some "C10"
    faculty := some "Science"
    major_subject := some "Maths"
    grades := some gradesNine }

/-- C2 counterexample: with nine grade pairs the handler's `subjects` array
has nine entries — the ninth pair is kept, not dropped (`new Array(8)` is
grown by the out-of-range write) — so the insert does not carry exactly 8
subject values: the parameter list has 25 entries instead of 23. -/
theorem applyArrays_nine_not_truncated :
    (applyArrays gradesNine).1.length = 9 ∧
    ¬ (applyArrays gradesNine).1.length = 8 ∧
    (applyArrays gradesNine).1.getLast? = some "Geography" ∧
    (applyParams bodyNine gradesNine).length = 25 := by decide

/-- C2 amended: for a grades sequence of length n > 8 nothing is dropped:
both arrays have length n, the ninth entry holds the ninth pair's data, and
the parameter list carries 7 + 2·n values rather than the 23 the column
list expects, so the insert does not behave like one of the truncated
sequence. -/
theorem applyArrays_long_grades_extend (b : ApplyBody) (g : List GradeEntry)
    (h : 8 < g.length) :
    (applyArrays g).1.length = g.length ∧
    (applyArrays g).2.length = g.length ∧
    (applyArrays g).1[8]? = (g[8]?).map (fun e => orEmpty e.subject) ∧
    (applyParams b g).length = 7 + 2 * g.length := by
  have h8 : 8 - g.length = 0 := by omega
  refine ⟨?_, ?_, ?_, ?_⟩
  · simp [applyArrays_eq, h8]
  · simp [applyArrays_eq, h8]
  · simp [applyArrays_eq, h8, List.getElem?_map]
  · simp [applyParams, applyArrays_eq, h8]; omega

/-- Witness for the amended C2 at the nine-pair body. -/
theorem applyArrays_long_grades_extend_witness :
    8 < gradesNine.length ∧
    ((applyArrays gradesNine).1.length = gradesNine.length ∧
     (applyArrays gradesNine).2.length = gradesNine.length ∧
     (applyArrays gradesNine).1[8]? =
       (gradesNine[8]?).map (fun e => orEmpty e.subject) ∧
     (applyParams bodyNine gradesNine).length = 7 + 2 * gradesNine.length) :=
  ⟨by decide, applyArrays_long_grades_extend bodyNine gradesNine (by decide)⟩

/-! ## Claim C8: positional alignment of stored subject/grade columns -/

/-- A single grade pair: subject Maths, grade A. -/
def gradesOne : List GradeEntry := [⟨some "Maths", some "A"⟩]

/-- A valid request body carrying the single pair. -/
def bodyOne : ApplyBody :=
  { student_name := some "Thabo Mokoena"
    phone_number := some "59981234"
    student_id := some "ST900"
    university := some "NUL"
    course_id := some "C12"
    faculty := some "Science"
    major_subject := some "Maths"
    grades := some gradesOne }

set_option maxRecDepth 8000 in
/-- C8 evaluated at the failing input: the first `/apply` insert names 23
columns but its VALUES clause has only 20 placeholders, and the parameter
list orders the whole `subjects` array before the whole `gradesValues`
array while the columns interleave subjectN/gradeN.  For the single pair
(Maths, A), the parameter at the position of column `grade1` is `""` (it is
`subjects[1]`), and the supplied grade `"A"` sits at the position of column
`subject5`: pair k is not stored at columns subject(k+1)/grade(k+1) — the
mismatched statement cannot store anything at all. -/
theorem applyInsert_misaligned :
    applyColumns.length = 23 ∧
    countPlaceholders sqlQueryApply = 20 ∧
    applyColumns[8]? = some "grade1" ∧
    (applyParams bodyOne gradesOne)[8]? = some "" ∧
    applyColumns[15]? = some "subject5" ∧
    (applyParams bodyOne gradesOne)[15]? = some "A" := by
  refine ⟨rfl, ?_, rfl, by decide, rfl, by decide⟩
  decide

/-! ## Claim C7: response totality of the first /apply handler -/

/-- A body with all seven scalar fields present but no `grades` field. -/
def bodyNoGrades : ApplyBody :=
  { student_name := some "Neo Ramaili"
    phone_number := some "57001122"
    student_id := some "ST501"
    university := some "Limkokwing"
    course_id := some "C3"
    faculty := some "ICT"
    major_subject := some "Computing"
    grades := none }

/-- The empty database state. -/
def dbEmpty : DB := { users := [], institutions := [], applications := [], admissions := [] }

/-- C7 counterexample: a request with every scalar field present but no
`grades` passes the validation check and then `grades.forEach` raises
outside the try/catch — the handler completes without producing any
response, contradicting the claim that every error is caught at the
handler boundary. -/
theorem applyHandler1_no_response_on_missing_grades :
    apply1Valid bodyNoGrades = true ∧
    applyHandler1 false bodyNoGrades dbEmpty = .uncaught dbEmpty ∧
    Outcome.respStatus (applyHandler1 false bodyNoGrades dbEmpty) = none := by decide

/-- C7 amended: a request failing scalar validation is answered 400; a
request carrying a `grades` array receives exactly one response with status
400, 500 or 201; but a request that passes validation without a `grades`
field throws uncaught and receives no response. -/
theorem applyHandler1_response_cases (dbFails : Bool) (b : ApplyBody) (db : DB) :
    (apply1Valid b = false → applyHandler1 dbFails b db = .response 400 db) ∧
    (∀ gs, b.grades = some gs →
      applyHandler1 dbFails b db = .response 400 db ∨
      applyHandler1 dbFails b db = .response 500 db ∨
      applyHandler1 dbFails b db = .response 201 (insertApplication db b)) ∧
    (apply1Valid b = true → b.grades = none →
      applyHandler1 dbFails b db = .uncaught db) := by
  refine ⟨?_, ?_, ?_⟩
  · intro hv; simp [applyHandler1, hv]
  · intro gs hgs
    by_cases hv : apply1Valid b = true
    · cases dbFails with
      | false => right; right; simp [applyHandler1, hv, hgs]
      | true => right; left; simp [applyHandler1, hv, hgs]
    · left
      simp only [Bool.not_eq_true] at hv
      simp [applyHandler1, hv]
  · intro hv hg; simp [applyHandler1, hv, hg]

/-- A valid body carrying an empty grades array. -/
def bodyEmptyGrades : ApplyBody :=
  { bodyNoGrades with grades := some [] }

/-- Witness for the amended C7: at a valid body with a grades array and a
failing query, the handler yields one of the three response statuses. -/
theorem applyHandler1_response_cases_witness :
    applyHandler1 true bodyEmptyGrades dbEmpty = .response 400 dbEmpty ∨
    applyHandler1 true bodyEmptyGrades dbEmpty = .response 500 dbEmpty ∨
    applyHandler1 true bodyEmptyGrades dbEmpty =
      .response 201 (insertApplication dbEmpty bodyEmptyGrades) :=
  (applyHandler1_response_cases true bodyEmptyGrades dbEmpty).2.1 [] rfl

/-! ## Claim C3: which of the two /apply registrations handles requests -/

/-- A body missing `phone_number` (and other scalars) but carrying the
three fields the second handler checks. -/
def bodyThreeFields : ApplyBody :=
  { student_name := some "Tsepo"
    phone_number := none
    student_id := some "ST1"
    university := none
    course_id := some "C1"
    faculty := none
    major_subject := none
    grades := some [] }

/-- C3 counterexample: at a body missing `phone_number`, the endpoint
(Express dispatches to the first matching registration) answers 400, while
the second-bound handler would answer 201 — and the endpoint disagrees with
the spec's last-bound dispatch model.  The observable behaviour is not that
of the second handler. -/
theorem applyDispatch_not_second_handler :
    dispatch applyRouteStack "POST" "/apply" false bodyThreeFields dbEmpty =
      .response 400 dbEmpty ∧
    applyHandler2 false bodyThreeFields dbEmpty =
      .response 201 (insertApplication dbEmpty bodyThreeFields) ∧
    dispatch applyRouteStack "POST" "/apply" false bodyThreeFields dbEmpty ≠
      applyHandler2 false bodyThreeFields dbEmpty ∧
    dispatch applyRouteStack "POST" "/apply" false bodyThreeFields dbEmpty ≠
      dispatchSpecLastBound applyRouteStack "POST" "/apply" false bodyThreeFields dbEmpty := by
  refine ⟨rfl, rfl, by decide, by decide⟩

/-- C3 amended: the source binds two handlers to `POST /apply`, and for
every request the endpoint's observable behaviour is that of the FIRST
bound handler; the later registration is the dead one. -/
theorem applyDispatch_first_handler (dbFails : Bool) (b : ApplyBody) (db : DB) :
    dispatch applyRouteStack "POST" "/apply" dbFails b db = applyHandler1 dbFails b db := rfl

/-! ## Claim C10: POST /applications never persists a row -/

/-- C10: every request that passes the required-field validation is answered
500 with the database unchanged: the try block evaluates the undefined
identifier `testQuery`, which raises before any insert is issued, and the
catch converts the error to 500.  The 201 branch is unreachable. -/
theorem applicationsHandler_never_inserts (b : ApplyBody) (db : DB)
    (h : applicationsValid b = true) :
    applicationsHandler b db = (500, db) := by
  have he : evalIdent "testQuery" = .error "ReferenceError" := rfl
  simp [applicationsHandler, h, he]

/-- Witness for C10: a fully valid body is answered 500 and the empty
database stays empty. -/
theorem applicationsHandler_never_inserts_witness :
    applicationsValid bodyOne = true ∧
    applicationsHandler bodyOne dbEmpty = (500, dbEmpty) :=
  ⟨by decide, applicationsHandler_never_inserts bodyOne dbEmpty (by decide)⟩

/-! ## Claim C4: the upload file filter -/

/-- The alternatives of the regular expression `/jpeg|jpg|png|gif/`. -/
def mimePatterns : List String := ["jpeg", "jpg", "png", "gif"]

/-- Whether pattern `p` matches at the start of `s`, character by
character. -/
def leadMatch : List Char → List Char → Bool
  | [], _ => true
  | _ :: _, [] => false
  | p :: ps, c :: cs => p == c && leadMatch ps cs

/-- Whether `p` matches at some position of `s`: an unanchored
regular-expression literal tried at every start position. -/
def occursIn (p : List Char) : List Char → Bool
  | [] => leadMatch p []
  | c :: cs => leadMatch p (c :: cs) || occursIn p cs

/-- The multer `fileFilter` test `/jpeg|jpg|png|gif/.test(file.mimetype)`:
an unanchored alternation of literals matches when some alternative matches
at some position of the declared MIME type.  The upload is accepted (stored
on disk, its path later persisted) exactly when this is true; otherwise the
filter raises the invalid-file-type error and the file is not written. -/
def fileFilterAccepts (mimetype : String) : Bool :=
  mimePatterns.any (fun p => occursIn p.data mimetype.data)

/-- The allow-list the claim asserts: the three image MIME types. -/
def allowedMimeTypes : List String := ["image/jpeg", "image/png", "image/gif"]

/-- A prefix match succeeds exactly when the text extends the pattern. -/
theorem leadMatch_iff (p : List Char) :
    ∀ s, leadMatch p s = true ↔ ∃ r, s = p ++ r := by
  induction p with
  | nil => intro s; simp [leadMatch]
  | cons a ps ih =>
    intro s
    cases s with
    | nil =>
      simp only [leadMatch]
      constructor
      · intro h; cases h
      · rintro ⟨r, hr⟩; cases hr
    | cons c cs =>
      simp only [leadMatch, Bool.and_eq_true, beq_iff_eq, ih]
      constructor
      · rintro ⟨hac, r, hr⟩; exact ⟨r, by simp [hac, hr]⟩
      · rintro ⟨r, hr⟩
        cases hr
        exact ⟨rfl, r, rfl⟩

/-- An unanchored match succeeds exactly when the pattern occurs as a
contiguous substring. -/
theorem occursIn_iff (p : List Char) :
    ∀ s, occursIn p s = true ↔ ∃ l r, s = l ++ p ++ r := by
  intro s
  induction s with
  | nil =>
    simp only [occursIn, leadMatch_iff]
    constructor
    · rintro ⟨r, hr⟩
      exact ⟨[], r, by simpa using hr⟩
    · rintro ⟨l, r, hr⟩
      have hl : l = [] ∧ p ++ r = [] := by
        constructor
        · cases l with
          | nil => rfl
          | cons x xs => simp at hr
        · cases l with
          | nil => simpa using hr.symm
          | cons x xs => simp at hr
      exact ⟨r, hl.2.symm⟩
  | cons c cs ih =>
    simp only [occursIn, Bool.or_eq_true, leadMatch_iff, ih]
    constructor
    · rintro (⟨r, hr⟩ | ⟨l, r, hr⟩)
      · exact ⟨[], r, by simpa using hr⟩
      · exact ⟨c :: l, r, by simp [hr]⟩
    · rintro ⟨l, r, hr⟩
      cases l with
      | nil => left; exact ⟨r, by simpa using hr⟩
      | cons x xs =>
        right
        simp only [List.cons_append, List.cons.injEq] at hr
        exact ⟨xs, r, hr.2⟩

/-- C4 counterexample: the declared MIME type `image/apng` lies outside the
{image/jpeg, image/png, image/gif} allow-list, yet the filter accepts it —
`RegExp.test` is an unanchored substring check, and `apng` contains `png` —
so acceptance is not equivalent to membership in the allow-list. -/
theorem fileFilter_accepts_apng :
    fileFilterAccepts "image/apng" = true ∧
    "image/apng" ∉ allowedMimeTypes ∧
    ¬ (fileFilterAccepts "image/apng" = true ↔ "image/apng" ∈ allowedMimeTypes) := by
  decide

/-- C4 amended: the filter accepts a file iff its declared MIME type
contains one of `jpeg`, `jpg`, `png`, `gif` as a substring.  (Every type in
the allow-list is therefore accepted, and every rejected upload lies
outside the allow-list and is not written to disk or stored in a row, but
acceptance is strictly wider than the allow-list.) -/
theorem fileFilterAccepts_iff (m : String) :
    fileFilterAccepts m = true ↔
      ∃ p ∈ mimePatterns, ∃ l r : List Char, m.data = l ++ p.data ++ r := by
  unfold fileFilterAccepts
  rw [List.any_eq_true]
  exact exists_congr fun p => and_congr_right fun _ => occursIn_iff p.data m.data

/-- Witness for the amended C4: `image/png` is accepted via its substring
`png`. -/
theorem fileFilterAccepts_iff_witness : fileFilterAccepts "image/png" = true :=
  (fileFilterAccepts_iff "image/png").mpr
    ⟨"png", by decide, "image/".data, ([] : List Char), by decide⟩

/-! ## Claim C5: registration and login -/

/-- Contract of the bcrypt library as the handlers rely on it
(`bcrypt.hash(password, 10)` / `bcrypt.compare(password, user.password)`):
a salted digest never equals the plaintext, and comparison against a digest
succeeds exactly for the plaintext it was built from. -/
structure BcryptModel where
  hash : String → Nat → String
  compare : String → String → Bool
  hash_ne : ∀ p s, hash p s ≠ p
  compare_correct : ∀ p s, compare p (hash p s) = true
  compare_sound : ∀ p q s, compare q (hash p s) = true → q = p

/-- The multipart body of `POST /register`: four string fields and the
uploaded profile picture (present as its stored path once multer accepted
it). -/
structure RegisterBody where
  name : Option String
  email : Option String
  password : Option String
  user_type : Option String
  filePath : Option String
deriving DecidableEq

/-- Validation of `POST /register`: the four fields and `req.file` must be
present. -/
def registerValid (b : RegisterBody) : Bool :=
  truthy b.name && truthy b.email && truthy b.password && truthy b.user_type &&
  b.filePath.isSome

/-- Autoincrement id for a new user row. -/
def nextUserId (db : DB) : Nat :=
  (db.users.map (fun u => u.id)).foldr max 0 + 1

/-- The user row inserted by registration: `INSERT INTO users (name, email,
password, user_type, profile_picture)` with the hashed password. -/
def mkUser (B : BcryptModel) (salt : Nat) (b : RegisterBody) (db : DB) : UserRow :=
  { id := nextUserId db
    name := orEmpty b.name
    email := orEmpty b.email
    password := B.hash (orEmpty b.password) salt
    user_type := orEmpty b.user_type
    profile_picture := b.filePath.getD "" }

/-- The `POST /register` handler: validate, hash the password with a fresh
salt, insert the user row, answer 201. -/
def register (B : BcryptModel) (salt : Nat) (b : RegisterBody) (db : DB) : Nat × DB :=
  if !(registerValid b) then (400, db)
  else (201, { db with users := db.users ++ [mkUser B salt b db] })

/-- The profile subset returned by a successful login. -/
structure Profile where
  id : Nat
  user_type : String
  name : String
  email : String
  profile_picture : String
deriving DecidableEq

/-- The `POST /login` handler: `SELECT * FROM users WHERE email = ?`, take
`data[0]` when non-empty, compare the submitted password against the stored
digest; 200 with the profile subset on success, 401 on no row or mismatch,
400 when a field is missing. -/
def login (B : BcryptModel) (email password : Option String) (db : DB) :
    Nat × Option Profile :=
  if !(truthy email && truthy password) then (400, none)
  else
    match db.users.filter (fun u => u.email == orEmpty email) with
    | [] => (401, none)
    | u :: _ =>
      if B.compare (orEmpty password) u.password then
        (200, some { id := u.id, user_type := u.user_type, name := u.name,
                     email := u.email, profile_picture := u.profile_picture })
      else (401, none)

/-- A concrete bcrypt instance satisfying the contract, used by the
counterexample and the witness: the digest is the plaintext behind a
version-and-salt marker. -/
def bcryptDemo : BcryptModel where
  hash := fun p _ => "$2b$10$" ++ p
  compare := fun q h => decide (h = "$2b$10$" ++ q)
  hash_ne := by
    intro p s h
    have hd := congrArg String.data h
    rw [String.data_append] at hd
    have hlen := congrArg List.length hd
    rw [List.length_append] at hlen
    simp at hlen
  compare_correct := by intro p s; simp
  compare_sound := by
    intro p q s h
    have h2 : ("$2b$10$" : String) ++ p = "$2b$10$" ++ q := of_decide_eq_true h
    have hd := congrArg String.data h2
    rw [String.data_append, String.data_append] at hd
    exact (String.ext (List.append_cancel_left hd)).symm

/-- A valid registration body used by the C5 counterexample and witness. -/
def regBody : RegisterBody :=
  { name := some "A"
    email := some "a@x.com"
    password := some "pw"
    user_type := some "student"
    filePath := some "uploads/1_p.png" }

/-- A database that already holds a user row with the same email as
`regBody` but a different password. -/
def dbDupEmail : DB :=
  { users := [{ id := 1, name := "Old", email := "a@x.com",
                password := bcryptDemo.hash "oldpw" 3, user_type := "student",
                profile_picture := "uploads/old.png" }]
    institutions := []
    applications := []
    admissions := [] }

/-- C5 counterexample: registering a valid payload whose email already
belongs to an existing user succeeds (duplicate emails are not prevented),
but the subsequent login with that email and the correct new plaintext is
answered 401, not 200: the login compares against `data[0]`, the first row
matching the email — the pre-existing user. -/
theorem register_then_login_duplicate_email :
    registerValid regBody = true ∧
    (register bcryptDemo 7 regBody dbDupEmail).1 = 201 ∧
    (login bcryptDemo regBody.email regBody.password
       (register bcryptDemo 7 regBody dbDupEmail).2).1 = 401 := by
  refine ⟨rfl, rfl, ?_⟩
  rfl

/-- C5 (amended with a freshness premise): for every bcrypt model and valid
registration payload whose email no existing user row carries, the stored
password is the salted digest and never the plaintext; a login with that
email and the correct plaintext answers 200 with the profile subset (id,
user_type, name, email, profile_picture); and a login with any other
non-empty plaintext answers 401. -/
theorem register_then_login (B : BcryptModel) (salt : Nat) (db : DB) (b : RegisterBody)
    (hvalid : registerValid b = true)
    (hfresh : ∀ u ∈ db.users, u.email ≠ orEmpty b.email) :
    (register B salt b db).1 = 201 ∧
    (∀ u ∈ (register B salt b db).2.users, u.email = orEmpty b.email →
      u.password = B.hash (orEmpty b.password) salt ∧ u.password ≠ orEmpty b.password) ∧
    login B b.email b.password (register B salt b db).2 =
      (200, some { id := nextUserId db, user_type := orEmpty b.user_type,
                   name := orEmpty b.name, email := orEmpty b.email,
                   profile_picture := b.filePath.getD "" }) ∧
    (∀ q : String, q ≠ orEmpty b.password → q ≠ "" →
      login B b.email (some q) (register B salt b db).2 = (401, none)) := by
  have hparts := hvalid
  simp only [registerValid, Bool.and_eq_true] at hparts
  obtain ⟨⟨⟨⟨hname, hemail⟩, hpwd⟩, hut⟩, hfile⟩ := hparts
  have hreg : register B salt b db =
      (201, { db with users := db.users ++ [mkUser B salt b db] }) := by
    simp [register, hvalid]
  have hfilter : (db.users ++ [mkUser B salt b db]).filter
      (fun u => u.email == orEmpty b.email) = [mkUser B salt b db] := by
    rw [List.filter_append]
    have h1 : db.users.filter (fun u => u.email == orEmpty b.email) = [] := by
      rw [List.filter_eq_nil_iff]
      intro u hu
      simp [hfresh u hu]
    rw [h1]
    simp [mkUser]
  refine ⟨by rw [hreg], ?_, ?_, ?_⟩
  · intro u hu hem
    rw [hreg] at hu
    simp only [List.mem_append, List.mem_singleton] at hu
    cases hu with
    | inl hmem => exact absurd hem (hfresh u hmem)
    | inr hnew =>
      subst hnew
      exact ⟨rfl, B.hash_ne (orEmpty b.password) salt⟩
  · rw [hreg]
    show login B b.email b.password _ = _
    unfold login
    rw [show (!(truthy b.email && truthy b.password)) = false by simp [hemail, hpwd]]
    simp only [Bool.false_eq_true, if_false]
    rw [hfilter]
    have hcmp : B.compare (orEmpty b.password) (mkUser B salt b db).password = true :=
      B.compare_correct (orEmpty b.password) salt
    simp [hcmp, mkUser]
    exact B.compare_correct (orEmpty b.password) salt
  · intro q hne hq0
    have hq : q.isEmpty = false := by
      cases hqe : q.isEmpty
      · rfl
      · exact absurd ((String.isEmpty_iff q).mp hqe) hq0
    have htq : truthy (some q) = true := by simp [truthy, hq]
    rw [hreg]
    show login B b.email (some q) _ = _
    unfold login
    rw [show (!(truthy b.email && truthy (some q))) = false by simp [hemail, htq]]
    simp only [Bool.false_eq_true, if_false]
    rw [hfilter]
    cases hc : B.compare (orEmpty (some q)) (mkUser B salt b db).password with
    | false => simp [hc]
    | true =>
      exact absurd (B.compare_sound (orEmpty b.password) q salt hc) hne

/-- Witness for the amended C5: registering `regBody` into the empty
database, logging in with the correct password answers 200 with the
profile, and logging in with a wrong password answers 401. -/
theorem register_then_login_witness :
    registerValid regBody = true ∧
    login bcryptDemo regBody.email regBody.password
        (register bcryptDemo 7 regBody dbEmpty).2 =
      (200, some { id := 1, user_type := "student", name := "A",
                   email := "a@x.com", profile_picture := "uploads/1_p.png" }) ∧
    login bcryptDemo regBody.email (some "wrong")
        (register bcryptDemo 7 regBody dbEmpty).2 = (401, none) := by
  refine ⟨by decide, ?_, ?_⟩
  · exact (register_then_login bcryptDemo 7 dbEmpty regBody (by decide) (by decide)).2.2.1
  · exact (register_then_login bcryptDemo 7 dbEmpty regBody (by decide) (by decide)).2.2.2
      "wrong" (by decide) (by decide)
